import Mathlib

set_option maxRecDepth 100000

/-!
Verification development for the Alteryx-to-BigQuery SQL compilation pipeline
implemented in `main3.py` of the A2A-VM-app repository.

The pipeline (function `generate_sql_from_tools`, fed by `parse_alteryx_xml`)
turns a sequence of workflow tools (`Select` and `Filter` nodes) into a single
SQL statement made of chained CTEs.  We model:

* Python dicts of column name to type tag as insertion-ordered association
  lists (`Schema`), with Python's dict-assignment semantics (`dictInsert`:
  an existing key keeps its position and gets the new value, a new key is
  appended);
* the schema update a `Select` tool performs (the dict comprehension at
  lines 87-90 of `main3.py`), including its `KeyError` on a missing column;
* the retry loop around the external model call (lines 117-130), including
  the fact that the module never imports `time`, so the `time.sleep(delay)`
  in the `except` handler raises a `NameError`;
* the textual CTE assembly and the final `SELECT` (lines 132-173), with
  `str.replace`, `str.strip` and `", ".join` modelled by executable
  functions on strings;
* the tool extraction details of `parse_alteryx_xml` that the claims touch:
  the `Selected` attribute comparison, the `Rename` passthrough, and the
  sort of the tool list by `int(id)`.

The external translation capability (`model.generate_content`) is an
injected parameter `attempt : String -> Nat -> Option String`, giving for a
prompt and an attempt index either the returned text or a raised exception.
-/

/-- A parsed `Select` field, as built at lines 44-48 of `main3.py`:
`name` is the `Name` attribute (assumed present; no claim exercises a
missing `Name`), `selected` is the result of `field.get('Selected') == 'True'`,
and `rename` is `field.get('Rename')` (`none` when the attribute is absent). -/
structure FieldSpec where
  name : String
  selected : Bool
  rename : Option String
deriving DecidableEq, Repr

/-- A workflow tool as extracted by `parse_alteryx_xml` (lines 39-54):
either a `Select` with its field list or a `Filter` with its expression.
Both keep `id` as the raw `ToolID` attribute string and carry the serialized
node markup (`xml_snippet`), used verbatim inside prompts.  Nodes of any
other type are skipped by the parser, so no further constructor exists. -/
inductive Tool where
  | select (id : String) (fields : List FieldSpec) (snippet : String)
  | filter (id : String) (expr : String) (snippet : String)
deriving DecidableEq, Repr

/-- The raw `ToolID` attribute of a tool. -/
def Tool.id : Tool → String
  | .select i _ _ => i
  | .filter i _ _ => i

/-- A Python dict from column name to type tag, as an insertion-ordered
association list (keys unique in every dict the program builds). -/
abbrev Schema := List (String × String)

/-- Python dict lookup `d[k]` restricted to its defined case:
the first (and in practice only) binding of `k`. -/
def lookupS : Schema → String → Option String
  | [], _ => none
  | (k0, v0) :: rest, k => if k0 = k then some v0 else lookupS rest k

/-- Python dict assignment `d[k] = v`: an existing key keeps its position
and receives the new value, a new key is appended at the end.  This is the
semantics the dict comprehension at lines 87-90 uses entry by entry. -/
def dictInsert : Schema → String → String → Schema
  | [], k, v => [(k, v)]
  | (k0, v0) :: rest, k, v =>
    if k0 = k then (k0, v) :: rest else (k0, v0) :: dictInsert rest k v

/-- `d.keys()` in insertion order. -/
def schemaKeys (s : Schema) : List String := s.map Prod.fst

/-- The output column name a `Select` field produces, from the expression
`field['rename'] if field['rename'] else field['name']` at line 88.
Python truthiness makes both `None` and the empty string fall back to
`name`. -/
def effectiveName (f : FieldSpec) : String :=
  match f.rename with
  | some r => if r = "" then f.name else r
  | none => f.name

/-- FieldSpec extraction at lines 44-48 of `main3.py`: `selected` is
`field.get('Selected') == 'True'` (a missing attribute compares unequal,
hence not selected), `rename` is passed through unchanged. -/
def parseField (nm : String) (selectedAttr renameAttr : Option String) : FieldSpec :=
  { name := nm, selected := selectedAttr == some "True", rename := renameAttr }

/-- The dict comprehension of the `Select` branch (lines 87-90), evaluated
left to right over the field list with an accumulating dict.  A selected
field whose `name` is not a key of the input schema raises `KeyError(name)`
(modelled as `Except.error name`), exactly at the first such field. -/
def selectFold (schema : Schema) : List FieldSpec → Schema → Except String Schema
  | [], acc => Except.ok acc
  | f :: fs, acc =>
    if f.selected then
      match lookupS schema f.name with
      | some ty => selectFold schema fs (dictInsert acc (effectiveName f) ty)
      | none => Except.error f.name
    else selectFold schema fs acc

/-- `output_schema` of a `Select` tool: the dict comprehension at
lines 87-90 of `main3.py`, starting from an empty dict. -/
def applySelect (schema : Schema) (fields : List FieldSpec) : Except String Schema :=
  selectFold schema fields []

/-- The schema transformation one tool performs: a `Select` projects and
renames (lines 87-90), a `Filter` leaves the schema unchanged
(`output_schema = current_schema.copy()` at line 82, untouched by the
`Filter` branch). -/
def applyToolSchema (schema : Schema) : Tool → Except String Schema
  | .select _ fields _ => applySelect schema fields
  | .filter _ _ _ => Except.ok schema

/-- The Schema Tracker fold: thread the schema through the tools in order,
stopping at the first `KeyError`. -/
def propagateSchema (schema : Schema) : List Tool → Except String Schema
  | [] => Except.ok schema
  | t :: ts =>
    match applyToolSchema schema t with
    | Except.ok s => propagateSchema s ts
    | Except.error e => Except.error e

deriving instance DecidableEq for Except

/-- An exception the Python code can raise while generating SQL:
a `KeyError` from the `Select` dict comprehension on a missing column, or
the `NameError` raised by `time.sleep` because `main3.py` never imports
`time`.  Both are caught by the handler at lines 175-176, which returns
`(None, "An error occurred during SQL generation: ...")`. -/
inductive PyError where
  | keyError (key : String)
  | nameError (nm : String)
deriving DecidableEq, Repr

/-- `time.sleep(delay)` as executed by `main3.py`: the module imports `os`,
`json`, `xml.etree.ElementTree`, `flask` and the Vertex AI packages but
never `time`, so evaluating `time.sleep(delay)` raises
`NameError: name 'time' is not defined`.  (The `print` on line 127 before
it succeeds and is irrelevant to the result.) -/
def sleepModel (_delay : Nat) : Except PyError Unit :=
  Except.error (PyError.nameError "time")

/-- The sleep the retry loop was written for: a wait that completes
normally.  Used only to exhibit what the loop at lines 117-130 would do if
`time` were imported. -/
def sleepIntended (_delay : Nat) : Except PyError Unit :=
  Except.ok ()

/-- The retry loop at lines 117-130 of `main3.py`:

    retries = 0; max_retries = 5
    while retries < max_retries:
        try: response = model.generate_content(prompt); break
        except: retries += 1; delay = 2 ** retries; print(...); time.sleep(delay)
    else:
        return None, "Failed to get a response from the model after 5 retries."

`attempt k` is the outcome of the `generate_content` call made with
`retries = k` (`some text` on success, `none` when it raises).  The `fuel`
argument is `max_retries - retries`, so the loop condition
`retries < max_retries` is exactly `fuel > 0`; recursion on `fuel` keeps
the definition structural.  The result pairs the loop's outcome with the
number of `generate_content` calls made: `Except.ok (some text)` models the
`break`, `Except.ok none` models falling through to the `else:` clause, and
`Except.error e` models an exception escaping the loop (which happens on
the very first failure, because `sleepModel` raises). -/
def retryLoopFuel (sleep : Nat → Except PyError Unit) (attempt : Nat → Option String) :
    Nat → Nat → Except PyError (Option String) × Nat
  | _, 0 => (Except.ok none, 0)
  | retries, fuel + 1 =>
    match attempt retries with
    | some text => (Except.ok (some text), 1)
    | none =>
      match sleep (2 ^ (retries + 1)) with
      | Except.error e => (Except.error e, 1)
      | Except.ok _ =>
        let rest := retryLoopFuel sleep attempt (retries + 1) fuel
        (rest.1, rest.2 + 1)

/-- The whole `while`/`else` construct as the code runs it:
`retries = 0`, `max_retries = 5`, with the module's actual (raising)
`time.sleep`. -/
def retryCall (attempt : Nat → Option String) : Except PyError (Option String) × Nat :=
  retryLoopFuel sleepModel attempt 0 5

/-- `", ".join(...)`-style joining (`str.join` over a list). -/
def joinSep (sep : String) : List String → String
  | [] => ""
  | [x] => x
  | x :: xs => x ++ sep ++ joinSep sep xs

/-- `str.strip()`: drop whitespace from both ends. -/
def pyStrip (s : String) : String :=
  ⟨((s.data.dropWhile Char.isWhitespace).reverse.dropWhile Char.isWhitespace).reverse⟩

/-- One pass of `str.replace`: replace non-overlapping occurrences of
`pat` left to right.  `fuel` bounds the recursion (each step consumes at
least one character, so the input length suffices); a non-positive-length
pattern is left alone (the program only replaces non-empty patterns). -/
def replaceFuel (pat repl : List Char) : Nat → List Char → List Char
  | 0, s => s
  | _, [] => []
  | fuel + 1, c :: cs =>
    if pat ≠ [] ∧ pat.isPrefixOf (c :: cs) then
      repl ++ replaceFuel pat repl fuel ((c :: cs).drop pat.length)
    else
      c :: replaceFuel pat repl fuel cs

/-- Python `s.replace(pat, repl)` for non-empty `pat`. -/
def pyReplace (s pat repl : String) : String :=
  ⟨replaceFuel pat.data repl.data s.data.length s.data⟩

/-- Line 132: `response.text.strip().replace("```sql", "").replace("```", "")`. -/
def cleanSnippet (t : String) : String :=
  pyReplace (pyReplace (pyStrip t) "\x60\x60\x60sql" "") "\x60\x60\x60" ""

/-- `json.dumps(current_schema)` for a dict of plain strings. -/
def jsonDumps (schema : Schema) : String :=
  "\x7b" ++ joinSep ", " (schema.map fun kv => "\"" ++ kv.1 ++ "\": \"" ++ kv.2 ++ "\"") ++ "\x7d"

/-- The `Select` prompt f-string at lines 92-102 of `main3.py`. -/
def selectPrompt (cte : String) (schema : Schema) (snippet : String) : String :=
  "\nYou are a SQL agent specialized in converting Alteryx workflows to BigQuery SQL.\nYour task is to translate the following Alteryx \x27Select\x27 tool\x27s logic into a single BigQuery SQL SELECT statement.\n\n- **Input CTE:** \x60"
    ++ cte
    ++ "\x60\n- **Input Schema:** "
    ++ jsonDumps schema
    ++ "\n- **Alteryx Tool XML:**\n"
    ++ snippet
    ++ "\n\nGenerate only the BigQuery SQL SELECT statement. Do not include any explanations.\n"

/-- The `Filter` prompt f-string at lines 105-115 of `main3.py`. -/
def filterPrompt (cte : String) (schema : Schema) (snippet : String) : String :=
  "\nYou are a SQL agent specialized in converting Alteryx workflows to BigQuery SQL.\nYour task is to translate the following Alteryx \x27Filter\x27 tool\x27s expression into a BigQuery SQL WHERE clause.\n\n- **Input CTE:** \x60"
    ++ cte
    ++ "\x60\n- **Input Schema:** "
    ++ jsonDumps schema
    ++ "\n- **Alteryx Tool XML:**\n"
    ++ snippet
    ++ "\n\nGenerate only the BigQuery SQL WHERE clause, including the \x27WHERE\x27 keyword. Do not include any explanations.\n"

/-- `f"cte_{n}"`. -/
def cteName (n : Nat) : String := "cte_" ++ Nat.repr n

/-- The `Select` CTE block built at lines 136-141. -/
def selectCte (n : Nat) (snip cte : String) : String :=
  "WITH " ++ cteName n ++ " AS (\n    " ++ snip ++ "\nFROM " ++ cte ++ "\n)"

/-- The `Filter` CTE block built at lines 144-150. -/
def filterCte (n : Nat) (cols cte snip : String) : String :=
  "WITH " ++ cteName n ++ " AS (\n    SELECT " ++ cols ++ "\n    FROM " ++ cte ++ "\n    " ++ snip ++ "\n)"

/-- How `generate_sql_from_tools` can fail: an exception caught by the
handler at lines 175-176, the `else:` return at line 130 after exhausting
the retries, or the `"No SQL steps were generated."` return at line 157
(the spec's `EmptyPipelineError`). -/
inductive GenError where
  | pyException (e : PyError)
  | retriesExhausted (n : Nat)
  | noSqlSteps
deriving DecidableEq, Repr

/-- One iteration of the `for i, tool in enumerate(tools)` loop
(lines 80-153), for loop index `i`, input schema `schema` and input CTE
name `cte`.  In source order: the `Select` branch first computes
`output_schema` (raising `KeyError` on a missing column), then the prompt
is built, the retry loop runs, the snippet is cleaned and the CTE block is
appended.  On success the result pairs the CTE text with the tool's output
schema. -/
def stepTool (attempt : String → Nat → Option String) (i : Nat) (schema : Schema)
    (cte : String) : Tool → Except GenError (String × Schema)
  | Tool.select _ fields snippet =>
    match applySelect schema fields with
    | Except.error k => Except.error (GenError.pyException (PyError.keyError k))
    | Except.ok outSchema =>
      match (retryCall (attempt (selectPrompt cte schema snippet))).1 with
      | Except.error e => Except.error (GenError.pyException e)
      | Except.ok none => Except.error (GenError.retriesExhausted 5)
      | Except.ok (some text) =>
        Except.ok (selectCte (i + 1) (cleanSnippet text) cte, outSchema)
  | Tool.filter _ _ snippet =>
    match (retryCall (attempt (filterPrompt cte schema snippet))).1 with
    | Except.error e => Except.error (GenError.pyException e)
    | Except.ok none => Except.error (GenError.retriesExhausted 5)
    | Except.ok (some text) =>
      Except.ok (filterCte (i + 1) (joinSep ", " (schemaKeys schema)) cte (cleanSnippet text), schema)

/-- The whole `for` loop: returns the accumulated `sql_steps` list together
with the final `current_schema` and `current_cte` (the state after the last
iteration), or the first error. -/
def genLoop (attempt : String → Nat → Option String) :
    List Tool → Nat → Schema → String → Except GenError (List String × Schema × String)
  | [], _, schema, cte => Except.ok ([], schema, cte)
  | t :: ts, i, schema, cte =>
    match stepTool attempt i schema cte t with
    | Except.error e => Except.error e
    | Except.ok (stepText, outSchema) =>
      match genLoop attempt ts (i + 1) outSchema (cteName (i + 1)) with
      | Except.error e => Except.error e
      | Except.ok (steps, finalSchema, finalCte) =>
        Except.ok (stepText :: steps, finalSchema, finalCte)

/-- `generate_sql_from_tools` generalized over the starting state, i.e. the
loop of lines 80-153 followed by the assembly of lines 155-173:
the emptiness check (`sql_steps` is empty exactly when `tools` is, one
block being appended per tool), the join with blank lines, the
`str.replace` of `f"FROM {tools[0]['id']}"`, and the final view statement
ending in `SELECT <final columns> FROM <final CTE>;`. -/
def generateFrom (attempt : String → Nat → Option String) (schema : Schema)
    (cte : String) (tools : List Tool) : Except GenError String :=
  match genLoop attempt tools 0 schema cte with
  | Except.error e => Except.error e
  | Except.ok (steps, finalSchema, finalCte) =>
    match tools with
    | [] => Except.error GenError.noSqlSteps
    | t0 :: _ =>
      Except.ok
        ("CREATE OR REPLACE VIEW \x60your_project.your_dataset.your_view_name\x60 AS\n"
          ++ pyReplace (joinSep "\n\n" steps) ("FROM " ++ t0.id)
              "FROM \x60your_project.your_dataset.your_initial_table\x60"
          ++ ("\n\nSELECT\n    " ++ joinSep ", " (schemaKeys finalSchema)
              ++ "\nFROM\n    " ++ finalCte ++ ";"))

/-- The hardcoded source schema of lines 74-77 of `main3.py`. -/
def initialSchema : Schema :=
  [("OrderID", "STRING"), ("CustomerName", "STRING"),
   ("ProductCategory", "STRING"), ("SalesAmount", "FLOAT")]

/-- `generate_sql_from_tools(tools)` with the translation capability
injected: always starts from `initialSchema` and the CTE name
`"initial_data"` (lines 73-78). -/
def generate_sql_from_tools (attempt : String → Nat → Option String)
    (tools : List Tool) : Except GenError String :=
  generateFrom attempt initialSchema "initial_data" tools

/-- The numeric value of a non-empty all-digit character list. -/
def digitsVal? : List Char → Option Nat
  | [] => none
  | cs =>
    if cs.all Char.isDigit then
      some (cs.foldl (fun n c => n * 10 + (c.toNat - 48)) 0)
    else none

/-- Python `int(s)` on the decimal forms the workflow IDs take: an optional
sign followed by digits (surrounding whitespace and underscore separators,
which `int` also accepts, are not modelled — no claim exercises them).
`none` models the `ValueError` a non-numeric `ToolID` raises. -/
def pyInt? (s : String) : Option Int :=
  match s.data with
  | '-' :: rest => (digitsVal? rest).map (fun n => -(n : Int))
  | '+' :: rest => (digitsVal? rest).map (fun n => (n : Int))
  | cs => (digitsVal? cs).map (fun n => (n : Int))

/-- The sort key of line 57: `int(x['id'])` (defined only when the id is
numeric; the `getD` branch is unreachable under `sortToolsById`'s guard). -/
def toolIdInt (t : Tool) : Int := (pyInt? t.id).getD 0

/-- Comparison of tools by numeric id, the order `tools.sort(key=...)`
establishes. -/
def toolLE (a b : Tool) : Prop := toolIdInt a ≤ toolIdInt b

instance : DecidableRel toolLE :=
  fun a b => inferInstanceAs (Decidable (toolIdInt a ≤ toolIdInt b))

instance : IsTotal Tool toolLE := ⟨fun a b => le_total (toolIdInt a) (toolIdInt b)⟩

instance : IsTrans Tool toolLE := ⟨fun _ _ _ => le_trans⟩

/-- Line 57 of `main3.py`: `tools.sort(key=lambda x: int(x['id']))`, the
final step of `parse_alteryx_xml` before returning.  Python's `list.sort`
is a stable comparison sort; `List.insertionSort` with the `toolLE`
comparison is one such sort.  If some `ToolID` is not numeric, `int`
raises, the handler at lines 62-63 catches it, and the parser returns an
error instead of a tool list. -/
def sortToolsById (tools : List Tool) : Except String (List Tool) :=
  if tools.all (fun t => (pyInt? t.id).isSome) then
    Except.ok (List.insertionSort toolLE tools)
  else
    Except.error "An unexpected error occurred during XML parsing"

theorem selectFold_example :
    applySelect [("A", "STRING"), ("B", "FLOAT")]
      [⟨"A", true, some "X"⟩, ⟨"B", false, none⟩] = Except.ok [("X", "STRING")] := by
  decide

/-- A successful loop iteration computes exactly the Schema Tracker's
transformation of the input schema by the tool. -/
theorem stepTool_schema {attempt : String → Nat → Option String} {i : Nat}
    {schema : Schema} {cte : String} {t : Tool} {p : String × Schema}
    (h : stepTool attempt i schema cte t = Except.ok p) :
    applyToolSchema schema t = Except.ok p.2 := by
  cases t with
  | select idv fields snippet =>
    unfold stepTool at h
    cases hs : applySelect schema fields with
    | error k => simp [hs] at h
    | ok out =>
      simp only [hs] at h
      cases hr : (retryCall (attempt (selectPrompt cte schema snippet))).1 with
      | error e => simp [hr] at h
      | ok o =>
        simp only [hr] at h
        cases o with
        | none => simp at h
        | some text =>
          simp only [Except.ok.injEq] at h
          subst h
          simpa [applyToolSchema] using hs
  | filter idv expr snippet =>
    unfold stepTool at h
    cases hr : (retryCall (attempt (filterPrompt cte schema snippet))).1 with
    | error e => simp [hr] at h
    | ok o =>
      simp only [hr] at h
      cases o with
      | none => simp at h
      | some text =>
        simp only [Except.ok.injEq] at h
        subst h
        simp [applyToolSchema]

/-- A successful run of the `for` loop threads the schema exactly as the
Schema Tracker fold does, and leaves `current_cte` at `cte_<n>` for `n`
tools (or untouched for zero tools). -/
theorem genLoop_ok {attempt : String → Nat → Option String} :
    ∀ {ts : List Tool} {i : Nat} {schema : Schema} {cte : String}
      {steps : List String} {fs : Schema} {fc : String},
      genLoop attempt ts i schema cte = Except.ok (steps, fs, fc) →
      propagateSchema schema ts = Except.ok fs ∧
        (ts = [] → fc = cte) ∧ (ts ≠ [] → fc = cteName (i + ts.length)) := by
  intro ts
  induction ts with
  | nil =>
    intro i schema cte steps fs fc h
    unfold genLoop at h
    simp only [Except.ok.injEq, Prod.mk.injEq] at h
    obtain ⟨-, h2, h3⟩ := h
    subst h2; subst h3
    exact ⟨rfl, fun _ => rfl, fun hne => absurd rfl hne⟩
  | cons t ts ih =>
    intro i schema cte steps fs fc h
    unfold genLoop at h
    cases hstep : stepTool attempt i schema cte t with
    | error e => simp [hstep] at h
    | ok q =>
      simp only [hstep] at h
      cases hrec : genLoop attempt ts (i + 1) q.2 (cteName (i + 1)) with
      | error e => simp [hrec] at h
      | ok r =>
        simp only [hrec, Except.ok.injEq, Prod.mk.injEq] at h
        obtain ⟨-, h2, h3⟩ := h
        subst h2; subst h3
        obtain ⟨ihs, ihnil, ihcons⟩ := ih hrec
        refine ⟨?_, fun hx => absurd hx (by simp), fun _ => ?_⟩
        · unfold propagateSchema
          rw [stepTool_schema hstep]
          exact ihs
        · rcases ts with _ | ⟨u, us⟩
          · simpa using ihnil rfl
          · rw [ihcons (by simp)]
            congr 1
            simp only [List.length_cons]
            omega

/-- A key absent from a dict stays absent after appending a different key. -/
theorem lookupS_append_none {acc : Schema} {k k' v : String}
    (h : lookupS acc k' = none) (hne : k ≠ k') :
    lookupS (acc ++ [(k, v)]) k' = none := by
  induction acc with
  | nil => simp [lookupS, hne]
  | cons e rest ih =>
    obtain ⟨k0, v0⟩ := e
    by_cases hk : k0 = k'
    · simp [lookupS, hk] at h
    · simp only [lookupS, hk, if_neg, List.cons_append] at h ⊢
      exact ih h

/-- Assigning a fresh key to a Python dict appends the binding. -/
theorem dictInsert_not_mem {acc : Schema} {k v : String}
    (h : lookupS acc k = none) :
    dictInsert acc k v = acc ++ [(k, v)] := by
  induction acc with
  | nil => rfl
  | cons e rest ih =>
    obtain ⟨k0, v0⟩ := e
    by_cases hk : k0 = k
    · simp [lookupS, hk] at h
    · simp only [lookupS, hk, if_neg] at h
      simp [dictInsert, hk, ih h]

/-- The dict comprehension with a running accumulator: when every selected
field resolves in the input schema, its effective name is fresh for the
accumulator, and the effective names of the selected fields are pairwise
distinct, the comprehension appends exactly one binding per selected field,
in field order. -/
theorem selectFold_append {schema : Schema} :
    ∀ {fs : List FieldSpec} {acc : Schema},
      (∀ f ∈ fs, f.selected = true → (lookupS schema f.name).isSome = true) →
      (∀ f ∈ fs, f.selected = true → lookupS acc (effectiveName f) = none) →
      ((fs.filter fun f => f.selected).map effectiveName).Nodup →
      selectFold schema fs acc =
        Except.ok (acc ++ (fs.filter fun f => f.selected).map
          fun f => (effectiveName f, (lookupS schema f.name).getD "")) := by
  intro fs
  induction fs with
  | nil => intro acc _ _ _; simp [selectFold]
  | cons f fs ih =>
    intro acc hfound hfresh hnodup
    cases hsel : f.selected with
    | false =>
      simp only [selectFold, hsel, Bool.false_eq_true, if_neg, not_false_eq_true]
      have : (List.filter (fun f => f.selected) (f :: fs)) = List.filter (fun f => f.selected) fs := by
        simp [List.filter_cons, hsel]
      rw [this] at hnodup ⊢
      exact ih (fun g hg => hfound g (List.mem_cons_of_mem f hg))
        (fun g hg => hfresh g (List.mem_cons_of_mem f hg)) hnodup
    | true =>
      have hsome := hfound f (List.mem_cons_self f fs) hsel
      obtain ⟨ty, hty⟩ : ∃ ty, lookupS schema f.name = some ty := by
        cases hlk : lookupS schema f.name with
        | none => rw [hlk] at hsome; simp at hsome
        | some ty => exact ⟨ty, rfl⟩
      have hfilter : (List.filter (fun f => f.selected) (f :: fs))
          = f :: List.filter (fun f => f.selected) fs := by
        simp [List.filter_cons, hsel]
      rw [hfilter] at hnodup
      simp only [List.map_cons, List.nodup_cons] at hnodup
      obtain ⟨hnotin, hnodup'⟩ := hnodup
      have hins : dictInsert acc (effectiveName f) ty = acc ++ [(effectiveName f, ty)] :=
        dictInsert_not_mem (hfresh f (List.mem_cons_self f fs) hsel)
      have step : selectFold schema (f :: fs) acc
          = selectFold schema fs (acc ++ [(effectiveName f, ty)]) := by
        simp [selectFold, hsel, hty, hins]
      rw [step]
      have hfresh' : ∀ g ∈ fs, g.selected = true →
          lookupS (acc ++ [(effectiveName f, ty)]) (effectiveName g) = none := by
        intro g hg hgsel
        have hgin : effectiveName g ∈ (List.filter (fun f => f.selected) fs).map effectiveName := by
          exact List.mem_map_of_mem _ (List.mem_filter.mpr ⟨hg, by simp [hgsel]⟩)
        have hne : effectiveName f ≠ effectiveName g := by
          intro hEq
          exact hnotin (hEq ▸ hgin)
        exact lookupS_append_none (hfresh g (List.mem_cons_of_mem f hg) hgsel) hne
      rw [ih (fun g hg => hfound g (List.mem_cons_of_mem f hg)) hfresh' hnodup']
      rw [hfilter]
      simp [hty, List.append_assoc]

/-- If some selected field of a `Select` tool is missing from the input
schema, the dict comprehension raises a `KeyError` (for the first such
field), whatever the accumulator. -/
theorem selectFold_error {schema : Schema} :
    ∀ {fs : List FieldSpec} {acc : Schema},
      (∃ f ∈ fs, f.selected = true ∧ lookupS schema f.name = none) →
      ∃ k, selectFold schema fs acc = Except.error k := by
  intro fs
  induction fs with
  | nil => intro acc h; simp at h
  | cons f fs ih =>
    intro acc h
    obtain ⟨g, hg, hgsel, hglk⟩ := h
    rcases List.mem_cons.mp hg with hgf | hgfs
    · subst hgf
      simp [selectFold, hgsel, hglk]
    · cases hsel : f.selected with
      | false =>
        have := @ih acc ⟨g, hgfs, hgsel, hglk⟩
        simpa [selectFold, hsel] using this
      | true =>
        cases hlk : lookupS schema f.name with
        | none => exact ⟨f.name, by simp [selectFold, hsel, hlk]⟩
        | some ty =>
          have := @ih (dictInsert acc (effectiveName f) ty) ⟨g, hgfs, hgsel, hglk⟩
          simpa [selectFold, hsel, hlk] using this

/-- A concrete end-to-end run of the modelled pipeline: one `Filter` tool
whose translation succeeds immediately compiles to a single-CTE view whose
body and terminal `SELECT` keep the four initial columns. -/
theorem generate_example_filter_run :
    generate_sql_from_tools (fun _ _ => some "WHERE x > 1")
      [Tool.filter "1" "x > 1" "<Node/>"]
      = Except.ok ("CREATE OR REPLACE VIEW \x60your_project.your_dataset.your_view_name\x60 AS\nWITH cte_1 AS (\n    SELECT OrderID, CustomerName, ProductCategory, SalesAmount\n    FROM initial_data\n    WHERE x > 1\n)\n\nSELECT\n    OrderID, CustomerName, ProductCategory, SalesAmount\nFROM\n    cte_1;") := by
  decide


/-! ### Concrete inputs used by witnesses and counterexamples -/

/-- A one-tool workflow whose only tool is the `Select` of the spec's
running example, with `ToolID` `"1"`. -/
def c4tools : List Tool :=
  [Tool.select "1" [⟨"OrderID", true, some "transaction_id"⟩] "<Node ToolID=1 Type=Select />"]

/-- A translation capability that succeeds immediately with a fixed
projection statement. -/
def c4attempt : String → Nat → Option String :=
  fun _ _ => some "SELECT OrderID AS transaction_id"

/-- A translation capability that succeeds immediately with a fixed
`WHERE` clause. -/
def c5attempt : String → Nat → Option String :=
  fun _ _ => some "WHERE SalesAmount > 100"

/-- A one-`Filter` workflow. -/
def c5tools : List Tool := [Tool.filter "7" "SalesAmount > 100" "<Node/>"]

/-- The query the pipeline compiles for `c5tools` under `c5attempt`. -/
def c5query : String := ((generate_sql_from_tools c5attempt c5tools).toOption).getD ""

/-- A capability returning a fixed `WHERE` clause, for the C6 witness. -/
def c6attempt : String → Nat → Option String :=
  fun _ _ => some "WHERE SalesAmount > 1000"

/-! ### Claims -/

/-- Claim C1, counterexample: the claim reads the output column name as
`rename` whenever the rename is present, but the code (line 88 of
`main3.py`) tests `field['rename']` for truthiness, so a present-but-empty
rename (`Rename=""` in the markup) falls back to the original name: on
schema `{A: STRING}` and one selected field `A` with rename `""`, the
output schema is `{A: STRING}`, not the claimed `{"": STRING}`. -/
theorem c1_select_projection_counterexample :
    applySelect [("A", "STRING")] [⟨"A", true, some ""⟩] = Except.ok [("A", "STRING")] ∧
    ([("A", "STRING")] : Schema) ≠ [("", "STRING")] := by
  decide

/-- Claim C1 (amended): for a Select tool whose selected fields all resolve
in the input schema and have pairwise distinct effective output names, the
output schema maps, for exactly those fields with `selected == true`, the
effective name (`rename` if present and non-empty, else `name`) to the
input schema's type for the original field name, in field order; in
particular, on schema `{A: STRING, B: FLOAT}` with `A` selected and renamed
`X` and `B` not selected, the output schema is exactly `{X: STRING}`. -/
theorem c1_select_projection (schema : Schema) (fields : List FieldSpec)
    (hfound : ∀ f ∈ fields, f.selected = true → (lookupS schema f.name).isSome = true)
    (hdistinct : ((fields.filter fun f => f.selected).map effectiveName).Nodup) :
    applySelect schema fields
      = Except.ok ((fields.filter fun f => f.selected).map
          fun f => (effectiveName f, (lookupS schema f.name).getD "")) ∧
    applySelect [("A", "STRING"), ("B", "FLOAT")]
      [⟨"A", true, some "X"⟩, ⟨"B", false, none⟩] = Except.ok [("X", "STRING")] := by
  constructor
  · exact selectFold_append hfound (fun _ _ _ => rfl) hdistinct
  · decide

/-- Witness for C1: the amended projection law applied to the spec's
concrete example. -/
theorem c1_select_projection_witness :
    applySelect [("A", "STRING"), ("B", "FLOAT")]
      [⟨"A", true, some "X"⟩, ⟨"B", false, none⟩] = Except.ok [("X", "STRING")] ∧
    applySelect [("A", "STRING"), ("B", "FLOAT")]
      [⟨"A", true, some "X"⟩, ⟨"B", false, none⟩] = Except.ok [("X", "STRING")] :=
  c1_select_projection [("A", "STRING"), ("B", "FLOAT")]
    [⟨"A", true, some "X"⟩, ⟨"B", false, none⟩] (by decide) (by decide)

/-- Claim C2: the parser's final sort (line 57 of `main3.py`) orders the
extracted tools by ascending numeric id — every successfully parsed tool
list is sorted by `int(id)` and is a permutation of the extracted list —
and on a document-order id set `{3,1,2}` the pipeline processes the tools
as `1,2,3`. -/
theorem c2_sorted_by_id :
    (∀ (tools out : List Tool), sortToolsById tools = Except.ok out →
      List.Sorted toolLE out ∧ List.Perm out tools) ∧
    sortToolsById
        [Tool.filter "3" "e3" "x3", Tool.filter "1" "e1" "x1", Tool.filter "2" "e2" "x2"]
      = Except.ok
        [Tool.filter "1" "e1" "x1", Tool.filter "2" "e2" "x2", Tool.filter "3" "e3" "x3"] := by
  constructor
  · intro tools out h
    unfold sortToolsById at h
    split at h
    · simp only [Except.ok.injEq] at h
      subst h
      exact ⟨List.sorted_insertionSort toolLE tools, List.perm_insertionSort toolLE tools⟩
    · exact Except.noConfusion h
  · decide

/-- Witness for C2: sorting the id set `{3,1,2}` yields a list sorted by
numeric id that is a permutation of the input. -/
theorem c2_sorted_by_id_witness :
    List.Sorted toolLE
        [Tool.filter "1" "e1" "x1", Tool.filter "2" "e2" "x2", Tool.filter "3" "e3" "x3"] ∧
    List.Perm
        [Tool.filter "1" "e1" "x1", Tool.filter "2" "e2" "x2", Tool.filter "3" "e3" "x3"]
        [Tool.filter "3" "e3" "x3", Tool.filter "1" "e1" "x1", Tool.filter "2" "e2" "x2"] :=
  c2_sorted_by_id.1
    [Tool.filter "3" "e3" "x3", Tool.filter "1" "e1" "x1", Tool.filter "2" "e2" "x2"]
    [Tool.filter "1" "e1" "x1", Tool.filter "2" "e2" "x2", Tool.filter "3" "e3" "x3"]
    (by decide)

/-- Claim C3 (code bug): with the module's actual `time.sleep` — which
raises `NameError` because `main3.py` never imports `time` — a translation
capability that fails every attempt makes the pipeline abort after exactly
one `generate_content` call with the `NameError`, caught by the generic
handler; it does not make 5 attempts and does not reach the
`"Failed to get a response from the model after 5 retries."` return.  The
second conjunct shows the loop as written (with a working sleep) would
behave exactly as the claim says: 5 calls, then fall-through to the
retries-exhausted return, with waits `2^1 < 2^2 < 2^3 < 2^4 < 2^5`. -/
theorem c3_retry_first_failure_aborts :
    retryCall (fun _ => none) = (Except.error (PyError.nameError "time"), 1) ∧
    retryLoopFuel sleepIntended (fun _ => none) 0 5 = (Except.ok none, 5) :=
  ⟨rfl, rfl⟩

/-- Claim C4 (code bug): the substitution at line 163 of `main3.py`
replaces `f"FROM {tools[0]['id']}"` (here `"FROM 1"`), not
`"FROM initial_data"`, so the first CTE's placeholder `FROM initial_data`
survives into the returned compiled query, contradicting the comment
`# Replace the initial CTE placeholder with a real table` and the claim
that the placeholder never appears in the output. -/
theorem c4_placeholder_survives :
    generate_sql_from_tools c4attempt c4tools
      = Except.ok
          (("CREATE OR REPLACE VIEW \x60your_project.your_dataset.your_view_name\x60 AS\nWITH cte_1 AS (\n    SELECT OrderID AS transaction_id\n"
            ++ "FROM initial_data")
            ++ "\n)\n\nSELECT\n    transaction_id\nFROM\n    cte_1;") := by
  decide

/-- Claim C5: every successfully compiled query ends with a terminal
`SELECT` whose column list is exactly the keys of the final propagated
schema, in their stable (insertion) order, reading `FROM` the last
generated CTE name `cte_<number of tools>`. -/
theorem c5_terminal_select_columns (attempt : String → Nat → Option String)
    (tools : List Tool) (q : String)
    (h : generate_sql_from_tools attempt tools = Except.ok q) :
    ∃ s pre, propagateSchema initialSchema tools = Except.ok s ∧
      q = pre ++ ("\n\nSELECT\n    " ++ joinSep ", " (schemaKeys s)
        ++ "\nFROM\n    " ++ cteName tools.length ++ ";") := by
  unfold generate_sql_from_tools generateFrom at h
  cases hloop : genLoop attempt tools 0 initialSchema "initial_data" with
  | error e => rw [hloop] at h; exact Except.noConfusion h
  | ok r =>
    obtain ⟨steps, fs, fc⟩ := r
    rw [hloop] at h
    cases tools with
    | nil => exact Except.noConfusion h
    | cons t0 ts =>
      simp only [Except.ok.injEq] at h
      subst h
      obtain ⟨hps, -, hcons⟩ := genLoop_ok hloop
      refine ⟨fs,
        "CREATE OR REPLACE VIEW \x60your_project.your_dataset.your_view_name\x60 AS\n"
          ++ pyReplace (joinSep "\n\n" steps) ("FROM " ++ t0.id)
              "FROM \x60your_project.your_dataset.your_initial_table\x60",
        hps, ?_⟩
      rw [hcons (by simp), Nat.zero_add]

/-- Witness for C5: the compiled query of a concrete one-`Filter` pipeline
ends with `SELECT` over the final schema's keys from `cte_1`. -/
theorem c5_terminal_select_columns_witness :
    ∃ s pre, propagateSchema initialSchema c5tools = Except.ok s ∧
      c5query = pre ++ ("\n\nSELECT\n    " ++ joinSep ", " (schemaKeys s)
        ++ "\nFROM\n    " ++ cteName c5tools.length ++ ";") :=
  c5_terminal_select_columns c5attempt c5tools c5query (by decide)

/-- Claim C6: a `Filter` tool never changes the schema — both the Schema
Tracker transformation and a successful loop iteration on a `Filter`
return the input schema unchanged. -/
theorem c6_filter_schema_invariance :
    (∀ (schema : Schema) (idv expr snip : String),
      applyToolSchema schema (Tool.filter idv expr snip) = Except.ok schema) ∧
    (∀ (attempt : String → Nat → Option String) (i : Nat) (schema : Schema)
      (cte idv expr snip : String) (p : String × Schema),
      stepTool attempt i schema cte (Tool.filter idv expr snip) = Except.ok p →
      p.2 = schema) := by
  refine ⟨fun _ _ _ _ => rfl, ?_⟩
  intro attempt i schema cte idv expr snip p h
  have hs := stepTool_schema h
  simp only [applyToolSchema, Except.ok.injEq] at hs
  exact hs.symm

/-- Witness for C6: a concrete `Filter` iteration leaves the initial
schema unchanged. -/
theorem c6_filter_schema_invariance_witness :
    ((stepTool c6attempt 0 initialSchema "initial_data"
        (Tool.filter "2" "SalesAmount > 1000" "<Node/>")).toOption.getD ("", [])).2
      = initialSchema :=
  c6_filter_schema_invariance.2 c6attempt 0 initialSchema "initial_data"
    "2" "SalesAmount > 1000" "<Node/>" _ (by decide)

/-- Claim C7: a `Select` referencing a selected field absent from the
current input schema makes the loop iteration — and the whole pipeline —
fail with the `KeyError` for a missing column (the spec's
`UnknownColumnError`), surfaced as an error result instead of a compiled
query. -/
theorem c7_unknown_column_error :
    (∀ (attempt : String → Nat → Option String) (idv : String)
      (fields : List FieldSpec) (snip : String) (rest : List Tool)
      (i : Nat) (schema : Schema) (cte : String),
      (∃ f ∈ fields, f.selected = true ∧ lookupS schema f.name = none) →
      ∃ k, genLoop attempt (Tool.select idv fields snip :: rest) i schema cte
        = Except.error (GenError.pyException (PyError.keyError k))) ∧
    (∀ (attempt : String → Nat → Option String) (idv : String)
      (fields : List FieldSpec) (snip : String) (rest : List Tool),
      (∃ f ∈ fields, f.selected = true ∧ lookupS initialSchema f.name = none) →
      ∃ k, generate_sql_from_tools attempt (Tool.select idv fields snip :: rest)
        = Except.error (GenError.pyException (PyError.keyError k))) := by
  have main : ∀ (attempt : String → Nat → Option String) (idv : String)
      (fields : List FieldSpec) (snip : String) (rest : List Tool)
      (i : Nat) (schema : Schema) (cte : String),
      (∃ f ∈ fields, f.selected = true ∧ lookupS schema f.name = none) →
      ∃ k, genLoop attempt (Tool.select idv fields snip :: rest) i schema cte
        = Except.error (GenError.pyException (PyError.keyError k)) := by
    intro attempt idv fields snip rest i schema cte hbad
    obtain ⟨k, hk⟩ := @selectFold_error schema fields [] hbad
    exact ⟨k, by simp [genLoop, stepTool, applySelect, hk]⟩
  refine ⟨main, ?_⟩
  intro attempt idv fields snip rest hbad
  obtain ⟨k, hk⟩ := main attempt idv fields snip rest 0 initialSchema "initial_data" hbad
  refine ⟨k, ?_⟩
  unfold generate_sql_from_tools generateFrom
  rw [hk]

/-- Witness for C7: selecting the nonexistent column `Zed` from the initial
schema fails the whole pipeline with a `KeyError`. -/
theorem c7_unknown_column_error_witness :
    ∃ k, generate_sql_from_tools (fun _ _ => some "SELECT 1")
        (Tool.select "1" [⟨"Zed", true, none⟩] "<Node/>" :: [])
      = Except.error (GenError.pyException (PyError.keyError k)) :=
  c7_unknown_column_error.2 (fun _ _ => some "SELECT 1") "1"
    [⟨"Zed", true, none⟩] "<Node/>" [] (by decide)

/-- Claim C8: an empty tool sequence makes `generate_sql_from_tools` fail
with the `"No SQL steps were generated."` return (the spec's
`EmptyPipelineError`), never a compiled query, whatever the translation
capability does. -/
theorem c8_empty_pipeline (attempt : String → Nat → Option String) :
    generate_sql_from_tools attempt [] = Except.error GenError.noSqlSteps := rfl

/-- Claim C9, counterexample: the claim says the effective output name is
the rename whenever it is present, but for a field with a present-but-empty
rename the code's truthiness test (line 88) uses the original name
instead. -/
theorem c9_rename_counterexample :
    effectiveName ⟨"A", true, some ""⟩ = "A" ∧
    effectiveName ⟨"A", true, some ""⟩ ≠ (Option.some "").getD "A" := by
  decide

/-- Claim C9 (amended): a field missing an explicit `Selected` flag parses
as not selected, and a field's effective output name is its rename if
present and non-empty, else its original name. -/
theorem c9_field_defaults :
    (∀ (nm : String) (r : Option String), (parseField nm none r).selected = false) ∧
    (∀ (f : FieldSpec) (r : String), f.rename = some r → r ≠ "" → effectiveName f = r) ∧
    (∀ f : FieldSpec, f.rename = none ∨ f.rename = some "" → effectiveName f = f.name) := by
  refine ⟨fun _ _ => rfl, ?_, ?_⟩
  · intro f r hr hne
    simp [effectiveName, hr, hne]
  · intro f hf
    rcases hf with hf | hf <;> simp [effectiveName, hf]

/-- Witness for C9: a field with no rename keeps its original name, and a
field with a non-empty rename takes it. -/
theorem c9_field_defaults_witness :
    effectiveName ⟨"CustomerName", true, none⟩ = "CustomerName" ∧
    effectiveName ⟨"OrderID", true, some "transaction_id"⟩ = "transaction_id" :=
  ⟨c9_field_defaults.2.2 ⟨"CustomerName", true, none⟩ (Or.inl rfl),
   c9_field_defaults.2.1 ⟨"OrderID", true, some "transaction_id"⟩ "transaction_id" rfl
     (by decide)⟩

/-- Claim C10: the compilation always starts from the hardcoded schema
`{OrderID: STRING, CustomerName: STRING, ProductCategory: STRING,
SalesAmount: FLOAT}` and the CTE name `initial_data` (lines 73-78),
independently of the input workflow, so every first tool sees exactly that
state. -/
theorem c10_initial_state_constant :
    initialSchema = [("OrderID", "STRING"), ("CustomerName", "STRING"),
      ("ProductCategory", "STRING"), ("SalesAmount", "FLOAT")] ∧
    ∀ (attempt : String → Nat → Option String) (tools : List Tool),
      generate_sql_from_tools attempt tools
        = generateFrom attempt
            [("OrderID", "STRING"), ("CustomerName", "STRING"),
             ("ProductCategory", "STRING"), ("SalesAmount", "FLOAT")]
            "initial_data" tools :=
  ⟨rfl, fun _ _ => rfl⟩
